import Mathlib

/-!
Verification of the Bollinger-squeeze alert pipeline.

The development shallowly embeds the two Python source files
`API/cron.py` and `alert_scheduler.py`.  Prices and timestamps are
modelled as rationals (the payloads carry decimal literals), the
sample standard deviation lives in `ℝ` via `Real.sqrt`, and the IEEE
non-finite values produced by a division by an exactly-zero moving
average are modelled by `Option`: `none` stands for NaN/±Infinity,
which compare `false` against any threshold, exactly as floats do.

The shared top-level definitions transcribe `API/cron.py`; the
namespace `Sched` transcribes the points where `alert_scheduler.py`
differs (and duplicates the identical indicator code verbatim so that
the agreement of the two files is a theorem, not a definition).
-/

/-! ### Configuration constants (cron.py lines 25-32) -/

/-- `BOLLINGER_PERIOD = 20` -/
def BOLLINGER_PERIOD : ℕ := 20

/-- `BOLLINGER_STD = 2.0` -/
def BOLLINGER_STD : ℚ := 2

/-- `SQUEEZE_THRESHOLD = 0.002` (the `API/cron.py` value). -/
def SQUEEZE_THRESHOLD : ℚ := 2 / 1000

/-- `EXCLUDED_HOURS = [7, 8, 9, 12, 13, 14]` -/
def EXCLUDED_HOURS : List ℕ := [7, 8, 9, 12, 13, 14]

/-- `ALERT_COOLDOWN = 3600` seconds. -/
def ALERT_COOLDOWN : ℚ := 3600

/-! ### Cooldown state (cron.py lines 38-51)

The externally persisted value is modelled as a rational epoch
timestamp threaded through the two store functions.  The source
bodies are placeholders: `get_last_alert_time` ignores the persisted
value and returns `0`, and `set_last_alert_time` does nothing. -/

/-- `get_last_alert_time`: the source always returns `0`
("Simplified - always allow first alert"), whatever is persisted. -/
def get_last_alert_time (_s : ℚ) : ℚ := 0

/-- `set_last_alert_time(timestamp)`: the source body is `pass`; the
persisted state is returned unchanged and the argument is discarded. -/
def set_last_alert_time (s : ℚ) (_timestamp : ℚ) : ℚ := s

/-- The cooldown check performed by `handler.do_GET`
(cron.py lines 291-294): `now - get_last_alert_time() >= ALERT_COOLDOWN`. -/
def shouldDispatch (s : ℚ) (now : ℚ) : Bool :=
  decide (now - get_last_alert_time s ≥ ALERT_COOLDOWN)

/-! ### Rolling-window indicator (cron.py lines 122-129)

`pandas` `rolling(window=period)` at row `i` aggregates rows
`i-period+1 .. i` and yields NaN (here `none`) while fewer than
`period` rows are available, i.e. for `i + 1 < period`. -/

/-- The rolling window of the close column at row `i`. -/
def windowAt (period : ℕ) (closes : List ℚ) (i : ℕ) : List ℚ :=
  (closes.take (i + 1)).drop (i + 1 - period)

/-- Arithmetic mean of a window (`.rolling(...).mean()` aggregate). -/
def mean (w : List ℚ) : ℚ := w.sum / (w.length : ℚ)

/-- Sample variance with `ddof = 1`, the `pandas` `.std()` default:
`Σ (x - mean)² / (n - 1)`.  On a window with fewer than two
observations the divisor is zero and the float result is NaN,
modelled as `none`. -/
def sampleVar (w : List ℚ) : Option ℚ :=
  if w.length < 2 then none
  else some ((w.map (fun x => (x - mean w) ^ 2)).sum / ((w.length : ℚ) - 1))

/-- Sample standard deviation (`pandas` `.std()`, `ddof = 1`): NaN
(`none`) on a degenerate window, otherwise the square root of the
sample variance. -/
noncomputable def sampleStd (w : List ℚ) : Option ℝ :=
  (sampleVar w).map fun v => Real.sqrt ((v : ℚ) : ℝ)

/-- The value of the sample standard deviation on a window with at
least two observations. -/
noncomputable def sampleStdVal (w : List ℚ) : ℝ :=
  Real.sqrt (((w.map (fun x => (x - mean w) ^ 2)).sum /
    ((w.length : ℚ) - 1) : ℚ) : ℝ)

/-- `df['SMA'] = df['Close'].rolling(window=period).mean()` at row `i`. -/
def SMA (period : ℕ) (closes : List ℚ) (i : ℕ) : Option ℚ :=
  if i + 1 < period then none else some (mean (windowAt period closes i))

/-- `df['STD'] = df['Close'].rolling(window=period).std()` at row `i`:
NaN while the window is not full, and also NaN on a full window of a
single observation (`ddof = 1`). -/
noncomputable def STD (period : ℕ) (closes : List ℚ) (i : ℕ) : Option ℝ :=
  if i + 1 < period then none else sampleStd (windowAt period closes i)

/-- `df['Upper_Band'] = df['SMA'] + (std * df['STD'])` at row `i`. -/
noncomputable def Upper_Band (period : ℕ) (mult : ℚ) (closes : List ℚ) (i : ℕ) :
    Option ℝ :=
  match SMA period closes i, STD period closes i with
  | some m, some s => some ((m : ℝ) + (mult : ℝ) * s)
  | _, _ => none

/-- `df['Lower_Band'] = df['SMA'] - (std * df['STD'])` at row `i`. -/
noncomputable def Lower_Band (period : ℕ) (mult : ℚ) (closes : List ℚ) (i : ℕ) :
    Option ℝ :=
  match SMA period closes i, STD period closes i with
  | some m, some s => some ((m : ℝ) - (mult : ℝ) * s)
  | _, _ => none

/-- `df['Band_Width'] = (df['Upper_Band'] - df['Lower_Band']) / df['SMA']`
at row `i`.  A division by an exactly-zero SMA yields a float
NaN/±Infinity, modelled as `none`. -/
noncomputable def Band_Width (period : ℕ) (mult : ℚ) (closes : List ℚ) (i : ℕ) :
    Option ℝ :=
  match SMA period closes i, Upper_Band period mult closes i,
        Lower_Band period mult closes i with
  | some m, some u, some l => if m = 0 then none else some ((u - l) / (m : ℝ))
  | _, _, _ => none

/-! ### Market evaluation (cron.py lines 131-179) -/

/-- A fetched dataframe, reduced to what `analyze_market` reads:
the `Close` column (one entry per row, so `len(df) = closes.length`). -/
structure DF where
  closes : List ℚ
  deriving DecidableEq

open scoped Classical in
/-- `is_squeeze = band_width < SQUEEZE_THRESHOLD` (cron.py line 162).
A float NaN/±Infinity band width (`none`) compares `false`. -/
noncomputable def is_squeeze (bw : Option ℝ) (thr : ℚ) : Bool :=
  match bw with
  | none => false
  | some b => decide (b < (thr : ℝ))

/-- `is_valid_hour = current_hour not in EXCLUDED_HOURS` (cron.py line 164). -/
def is_valid_hour (hour : ℕ) : Bool := decide (hour ∉ EXCLUDED_HOURS)

/-- The `result['data']` record built by `analyze_market`
(cron.py lines 168-177). -/
structure MarketData where
  price : ℚ
  band_width : Option ℝ
  threshold : ℚ
  is_squeeze : Bool
  current_hour : ℕ
  is_valid_hour : Bool
  signal : Bool
  bars_analyzed : ℕ

/-- The evaluation step of `analyze_market` (cron.py lines 156-177):
latest close, latest band width, squeeze and hour checks,
`signal = is_squeeze and is_valid_hour`. -/
noncomputable def evalStep (price : ℚ) (bw : Option ℝ) (hour : ℕ) (nbars : ℕ) :
    MarketData :=
  ⟨price, bw, SQUEEZE_THRESHOLD, is_squeeze bw SQUEEZE_THRESHOLD, hour,
   is_valid_hour hour, is_squeeze bw SQUEEZE_THRESHOLD && is_valid_hour hour,
   nbars⟩

/-- The outcome of `analyze_market`: the source returns a dict with
`status='error'` and empty data, or `status='success'` with data. -/
inductive AnalyzeResult where
  | err (message : String)
  | ok (data : MarketData)

/-- The fetch-with-fallback step of `analyze_market` (cron.py
lines 141-143): `df, error = fetch_twelve_data()`, and if `df is None`
then `df, error = fetch_yahoo_fallback()`.  Each provider result is the
Python pair `(df, error)`. -/
def fetchJoin (tw ya : Option DF × String) : Option DF × String :=
  match tw with
  | (some df, e) => (some df, e)
  | (none, _) => ya

/-- `analyze_market` (cron.py lines 131-179) over the two provider
results and the current UTC hour: failed fetch and insufficient data
produce `status='error'` reports, otherwise the Bollinger columns are
computed and the last row is evaluated. -/
noncomputable def analyze_market (tw ya : Option DF × String) (hour : ℕ) :
    AnalyzeResult :=
  match fetchJoin tw ya with
  | (none, e) => .err ("Data fetch failed: " ++ e)
  | (some df, _) =>
    if df.closes.length < BOLLINGER_PERIOD then
      .err ("Insufficient data: " ++ toString df.closes.length ++ " bars")
    else
      .ok (evalStep (df.closes.getLastD 0)
        (Band_Width BOLLINGER_PERIOD BOLLINGER_STD df.closes
          (df.closes.length - 1))
        hour df.closes.length)

/-! ### Orchestrator (cron.py lines 263-324, `handler.do_GET`) -/

/-- The observable outcome of one `do_GET` run: HTTP status code,
whether `send_trade_alert` was called, the `alert_sent` /
`alert_error` / cooldown fields added to the result dict, the printed
no-signal reasons, and the post-run persisted cooldown state. -/
structure RunOutcome where
  code : ℕ
  attempted : Bool
  alert_sent : Bool
  alert_error : Option String
  cooldown_active : Bool
  cooldown_remaining_minutes : Option ℤ
  reasons : List String
  store : ℚ

/-- `handler.do_GET` (cron.py lines 266-324).  Inputs: the analysis
result, the persisted cooldown state `s`, the clock value `now` at the
cooldown check, and the outcome `send` of `send_trade_alert` (its
`(success, msg)` pair) if it were called.  An error report is answered
with HTTP 500 and nothing else happens; a signal leads to the cooldown
check and possibly a dispatch; no signal leads to the printed reasons. -/
def do_GET (r : AnalyzeResult) (s : ℚ) (now : ℚ) (send : Bool × String) :
    RunOutcome :=
  match r with
  | .err _ => ⟨500, false, false, none, false, none, [], s⟩
  | .ok d =>
    if d.signal then
      if now - get_last_alert_time s ≥ ALERT_COOLDOWN then
        if send.1 then
          ⟨200, true, true, none, false, none, [], set_last_alert_time s now⟩
        else
          ⟨200, true, false, some send.2, false, none, [], s⟩
      else
        ⟨200, false, false, none, true,
         some ⌊(ALERT_COOLDOWN - (now - get_last_alert_time s)) / 60⌋, [], s⟩
    else
      ⟨200, false, false, none, false, none,
       (if d.is_squeeze then [] else ["No squeeze"]) ++
         (if d.is_valid_hour then [] else ["Invalid hour"]), s⟩

/-! ### Data fetching (cron.py lines 57-116)

The two fetch functions are modelled from the point where a payload
has been accepted (the `values` / `chart` shape checks passed) to the
returned dataframe.  A Twelve Data cell is a JSON number, a JSON
null, or a string; `astype(float)` parses numeric strings (modelled
as `num`), turns nulls into NaN, and raises on non-numeric text,
which the `except` clause converts into a whole-fetch failure. -/

/-- One OHLC cell as it sits in a provider payload. -/
inductive RawCell where
  | num (q : ℚ)
  | null
  | text (s : String)
  deriving DecidableEq

/-- One Twelve Data payload row after `set_index('datetime')`. -/
structure RawRow where
  ts : ℤ
  o : RawCell
  h : RawCell
  l : RawCell
  c : RawCell
  deriving DecidableEq

/-- A dataframe row after `astype(float)`: `none` is a float NaN. -/
structure FloatRow where
  ts : ℤ
  o : Option ℚ
  h : Option ℚ
  l : Option ℚ
  c : Option ℚ
  deriving DecidableEq

instance : DecidableRel (fun a b : RawRow => a.ts ≤ b.ts) :=
  fun a b => inferInstanceAs (Decidable (a.ts ≤ b.ts))

instance : IsTotal RawRow (fun a b => a.ts ≤ b.ts) :=
  ⟨fun a b => le_total a.ts b.ts⟩

instance : IsTrans RawRow (fun a b => a.ts ≤ b.ts) :=
  ⟨fun _ _ _ hab hbc => le_trans hab hbc⟩

/-- `df.sort_index()` on the datetime index (Twelve Data path). -/
def twelveSort (rows : List RawRow) : List RawRow :=
  List.insertionSort (fun a b => a.ts ≤ b.ts) rows

/-- `astype(float)` succeeds on a cell unless it is non-numeric text. -/
def cellOk : RawCell → Bool
  | .text _ => false
  | _ => true

/-- `astype(float)` succeeds on a row iff every cell converts. -/
def rowOk (r : RawRow) : Bool :=
  cellOk r.o && cellOk r.h && cellOk r.l && cellOk r.c

/-- The float value of a convertible cell (`null` becomes NaN). -/
def cellFloat : RawCell → Option ℚ
  | .num q => some q
  | _ => none

/-- Row conversion performed by `astype(float)`. -/
def rowFloat (r : RawRow) : FloatRow :=
  ⟨r.ts, cellFloat r.o, cellFloat r.h, cellFloat r.l, cellFloat r.c⟩

/-- `fetch_twelve_data` (cron.py lines 74-86) from an accepted payload:
`sort_index`, column selection, then `astype(float)`; a non-numeric
cell raises and the whole fetch returns `(None, error)`.  Rows with
null cells are kept (there is no `dropna` on this path). -/
def fetch_twelve_data (payload : List RawRow) : Option (List FloatRow) × String :=
  let sorted := twelveSort payload
  if sorted.all rowOk then (some (sorted.map rowFloat), "")
  else (none, "could not convert string to float")

/-- One Yahoo quote row: the JSON arrays carry numbers or nulls. -/
structure YRow where
  ts : ℤ
  o : Option ℚ
  h : Option ℚ
  l : Option ℚ
  c : Option ℚ
  deriving DecidableEq

instance : DecidableRel (fun a b : YRow => a.ts ≤ b.ts) :=
  fun a b => inferInstanceAs (Decidable (a.ts ≤ b.ts))

instance : IsTotal YRow (fun a b => a.ts ≤ b.ts) :=
  ⟨fun a b => le_total a.ts b.ts⟩

instance : IsTrans YRow (fun a b => a.ts ≤ b.ts) :=
  ⟨fun _ _ _ hab hbc => le_trans hab hbc⟩

/-- A Yahoo row survives `dropna()` iff no cell is null. -/
def yRowFull (r : YRow) : Bool :=
  r.o.isSome && r.h.isSome && r.l.isSome && r.c.isSome

/-- `fetch_yahoo_fallback` (cron.py lines 104-113) from an accepted
payload: `df.dropna().sort_index()`. -/
def fetch_yahoo_fallback (payload : List YRow) : List YRow :=
  List.insertionSort (fun a b => a.ts ≤ b.ts) (payload.filter yRowFull)

/-! ### `alert_scheduler.py`

Verbatim transcription of the second file where it matters: the
indicator code is character-for-character the same as in
`API/cron.py`, the squeeze threshold differs (`0.0002` instead of
`0.002`), and the entry point is `main_execution` (no HTTP layer,
and it aborts first when the Telegram credentials are missing). -/

namespace Sched

/-- `SQUEEZE_THRESHOLD = 0.0002` (the `alert_scheduler.py` value). -/
def SQUEEZE_THRESHOLD : ℚ := 2 / 10000

/-- `EXCLUDED_HOURS = [7, 8, 9, 12, 13, 14]` (scheduler file). -/
def EXCLUDED_HOURS : List ℕ := [7, 8, 9, 12, 13, 14]

/-- `ALERT_COOLDOWN = 3600` (scheduler file). -/
def ALERT_COOLDOWN : ℚ := 3600

/-- `get_last_alert_time` (alert_scheduler.py lines 42-46): the
placeholder always returns `0`. -/
def get_last_alert_time (_s : ℚ) : ℚ := 0

/-- `set_last_alert_time` (alert_scheduler.py lines 48-51): `pass`. -/
def set_last_alert_time (s : ℚ) (_timestamp : ℚ) : ℚ := s

/-- The cooldown check of `main_execution`
(alert_scheduler.py lines 274-277). -/
def shouldDispatch (s : ℚ) (now : ℚ) : Bool :=
  decide (now - get_last_alert_time s ≥ ALERT_COOLDOWN)

/-- `df['SMA']` assignment of `calculate_bollinger_bands`
(alert_scheduler.py line 128, identical text to cron.py line 124). -/
def SMA (period : ℕ) (closes : List ℚ) (i : ℕ) : Option ℚ :=
  if i + 1 < period then none else some (mean (windowAt period closes i))

/-- `df['STD']` assignment (alert_scheduler.py line 129): NaN while
the window is not full, and also NaN on a full one-observation window. -/
noncomputable def STD (period : ℕ) (closes : List ℚ) (i : ℕ) : Option ℝ :=
  if i + 1 < period then none else sampleStd (windowAt period closes i)

/-- `df['Upper_Band']` assignment (alert_scheduler.py line 130). -/
noncomputable def Upper_Band (period : ℕ) (mult : ℚ) (closes : List ℚ)
    (i : ℕ) : Option ℝ :=
  match SMA period closes i, STD period closes i with
  | some m, some s => some ((m : ℝ) + (mult : ℝ) * s)
  | _, _ => none

/-- `df['Lower_Band']` assignment (alert_scheduler.py line 131). -/
noncomputable def Lower_Band (period : ℕ) (mult : ℚ) (closes : List ℚ)
    (i : ℕ) : Option ℝ :=
  match SMA period closes i, STD period closes i with
  | some m, some s => some ((m : ℝ) - (mult : ℝ) * s)
  | _, _ => none

/-- `df['Band_Width']` assignment (alert_scheduler.py line 132). -/
noncomputable def Band_Width (period : ℕ) (mult : ℚ) (closes : List ℚ)
    (i : ℕ) : Option ℝ :=
  match SMA period closes i, Upper_Band period mult closes i,
        Lower_Band period mult closes i with
  | some m, some u, some l => if m = 0 then none else some ((u - l) / (m : ℝ))
  | _, _, _ => none

open scoped Classical in
/-- `is_squeeze = band_width < SQUEEZE_THRESHOLD`
(alert_scheduler.py line 167). -/
noncomputable def is_squeeze (bw : Option ℝ) (thr : ℚ) : Bool :=
  match bw with
  | none => false
  | some b => decide (b < (thr : ℝ))

/-- `is_valid_hour = current_hour not in EXCLUDED_HOURS`
(alert_scheduler.py line 169). -/
def is_valid_hour (hour : ℕ) : Bool := decide (hour ∉ EXCLUDED_HOURS)

/-- The evaluation step of the scheduler file's `analyze_market`
(alert_scheduler.py lines 161-182). -/
noncomputable def evalStep (price : ℚ) (bw : Option ℝ) (hour : ℕ)
    (nbars : ℕ) : MarketData :=
  ⟨price, bw, SQUEEZE_THRESHOLD, is_squeeze bw SQUEEZE_THRESHOLD, hour,
   is_valid_hour hour, is_squeeze bw SQUEEZE_THRESHOLD && is_valid_hour hour,
   nbars⟩

/-- The observable outcome of one `main_execution` run.  `exited` is
the `sys.exit(1)` taken when the Telegram credentials are missing. -/
structure Outcome where
  exited : Bool
  attempted : Bool
  alert_sent : Bool
  cooldown_active : Bool
  cooldown_remaining_minutes : Option ℤ
  reasons : List String
  store : ℚ

/-- `main_execution` (alert_scheduler.py lines 249-297): credential
check, analysis, then the same signal → cooldown → dispatch sequence
as `handler.do_GET`, with printed rather than HTTP-returned output. -/
def main_execution (configured : Bool) (r : AnalyzeResult) (s : ℚ)
    (now : ℚ) (send : Bool × String) : Outcome :=
  if ¬configured then ⟨true, false, false, false, none, [], s⟩
  else
    match r with
    | .err _ => ⟨false, false, false, false, none, [], s⟩
    | .ok d =>
      if d.signal then
        if now - get_last_alert_time s ≥ ALERT_COOLDOWN then
          if send.1 then
            ⟨false, true, true, false, none, [], set_last_alert_time s now⟩
          else
            ⟨false, true, false, false, none, [], s⟩
        else
          ⟨false, false, false, true,
           some ⌊(ALERT_COOLDOWN - (now - get_last_alert_time s)) / 60⌋, [], s⟩
      else
        ⟨false, false, false, false, none,
         (if d.is_squeeze then [] else ["No squeeze"]) ++
           (if d.is_valid_hour then [] else ["Invalid hour"]), s⟩

end Sched

/-! ### Dataframe columns and in-place update (cron.py lines 122-129)

For the frame claim the dataframe is modelled with its full column
structure: an index plus an association list of named columns, and a
heap of dataframe objects so that mutation through a reference is
observable.  Fetched columns hold parsed rationals; computed
indicator columns hold reals with NaN (`none`) entries. -/

/-- A dataframe column: raw fetched numbers, or computed values. -/
inductive ColV where
  | qcol (xs : List ℚ)
  | rcol (xs : List (Option ℝ))

/-- Lookup of a named column in the column list. -/
def getColList : List (String × ColV) → String → Option ColV
  | [], _ => none
  | p :: ps, n => if p.1 = n then some p.2 else getColList ps n

/-- `df[name] = column`: replace the column if the name exists,
otherwise append it at the end (pandas column-assignment semantics). -/
def setColList : List (String × ColV) → String → ColV → List (String × ColV)
  | [], n, v => [(n, v)]
  | p :: ps, n, v => if p.1 = n then (n, v) :: ps else p :: setColList ps n v

/-- A pandas dataframe: row index plus named columns. -/
structure PDF where
  index : List ℤ
  cols : List (String × ColV)

/-- `df[name]` read access. -/
def PDF.getCol (df : PDF) (n : String) : Option ColV := getColList df.cols n

/-- `df[name] = column` write access. -/
def PDF.setCol (df : PDF) (n : String) (v : ColV) : PDF :=
  ⟨df.index, setColList df.cols n v⟩

/-- The `Close` column the indicator reads (cron.py line 124). -/
def PDF.closesOf (df : PDF) : List ℚ :=
  match df.getCol "Close" with
  | some (.qcol xs) => xs
  | _ => []

/-- The whole rolling-mean column, one entry per dataframe row. -/
noncomputable def smaColumn (period : ℕ) (closes : List ℚ) : List (Option ℝ) :=
  (List.range closes.length).map fun i => (SMA period closes i).map (fun q => (q : ℝ))

/-- The whole rolling-std column. -/
noncomputable def stdColumn (period : ℕ) (closes : List ℚ) : List (Option ℝ) :=
  (List.range closes.length).map fun i => STD period closes i

/-- The whole upper-band column. -/
noncomputable def upperColumn (period : ℕ) (mult : ℚ) (closes : List ℚ) :
    List (Option ℝ) :=
  (List.range closes.length).map fun i => Upper_Band period mult closes i

/-- The whole lower-band column. -/
noncomputable def lowerColumn (period : ℕ) (mult : ℚ) (closes : List ℚ) :
    List (Option ℝ) :=
  (List.range closes.length).map fun i => Lower_Band period mult closes i

/-- The whole band-width column. -/
noncomputable def bwColumn (period : ℕ) (mult : ℚ) (closes : List ℚ) :
    List (Option ℝ) :=
  (List.range closes.length).map fun i => Band_Width period mult closes i

/-- `calculate_bollinger_bands(df, period, std)` (cron.py lines
122-129) as a heap transformer: the argument is a reference `r` into a
heap of dataframes, the five column assignments mutate the referenced
dataframe in place, and the same reference is returned. -/
noncomputable def calculate_bollinger_bands (heap : ℕ → PDF) (r : ℕ)
    (period : ℕ) (mult : ℚ) : (ℕ → PDF) × ℕ :=
  let df0 := heap r
  let closes := df0.closesOf
  let df1 := df0.setCol "SMA" (.rcol (smaColumn period closes))
  let df2 := df1.setCol "STD" (.rcol (stdColumn period closes))
  let df3 := df2.setCol "Upper_Band" (.rcol (upperColumn period mult closes))
  let df4 := df3.setCol "Lower_Band" (.rcol (lowerColumn period mult closes))
  let df5 := df4.setCol "Band_Width" (.rcol (bwColumn period mult closes))
  (Function.update heap r df5, r)

/-! ### Helper lemmas -/

theorem windowAt_length {period : ℕ} {closes : List ℚ} {i : ℕ}
    (hper : period ≤ i + 1) (hi : i < closes.length) :
    (windowAt period closes i).length = period := by
  simp only [windowAt, List.length_drop, List.length_take]
  omega

theorem windowAt_eq_slice {period : ℕ} {closes : List ℚ} {i : ℕ}
    (hper : period ≤ i + 1) :
    windowAt period closes i = (closes.drop (i + 1 - period)).take period := by
  rw [windowAt, List.drop_take]
  congr 1
  omega

theorem windowAt_subset (period : ℕ) (closes : List ℚ) (i : ℕ) :
    windowAt period closes i ⊆ closes :=
  fun _x hx => List.take_subset _ _ (List.drop_subset _ _ hx)

theorem mean_const {w : List ℚ} {c : ℚ} (hw : w ≠ [])
    (h : ∀ x ∈ w, x = c) : mean w = c := by
  have hrep : w = List.replicate w.length c :=
    List.eq_replicate_iff.mpr ⟨rfl, h⟩
  have h0 : w.length ≠ 0 := fun hl => hw (List.length_eq_zero.mp hl)
  have hn : (w.length : ℚ) ≠ 0 := Nat.cast_ne_zero.mpr h0
  rw [mean]
  nth_rewrite 1 [hrep]
  rw [List.sum_replicate, nsmul_eq_mul]
  field_simp

theorem sampleVar_const {w : List ℚ} {c : ℚ} (hw : 2 ≤ w.length)
    (h : ∀ x ∈ w, x = c) : sampleVar w = some 0 := by
  have hne : w ≠ [] := by
    intro h0
    rw [h0] at hw
    simp at hw
  have hsum : (w.map (fun x => (x - mean w) ^ 2)).sum = 0 := by
    apply List.sum_eq_zero
    intro x hx
    rcases List.mem_map.mp hx with ⟨y, hy, rfl⟩
    rw [h y hy, mean_const hne h]
    ring
  rw [sampleVar, if_neg (by omega), hsum, zero_div]

theorem sampleStd_const {w : List ℚ} {c : ℚ} (hw : 2 ≤ w.length)
    (h : ∀ x ∈ w, x = c) : sampleStd w = some 0 := by
  rw [sampleStd, sampleVar_const hw h]
  simp

theorem sampleStd_eq_val {w : List ℚ} (hw : 2 ≤ w.length) :
    sampleStd w = some (sampleStdVal w) := by
  rw [sampleStd, sampleVar, if_neg (by omega)]
  rfl

theorem getColList_set_self (ps : List (String × ColV)) (n : String)
    (v : ColV) : getColList (setColList ps n v) n = some v := by
  induction ps with
  | nil => simp [setColList, getColList]
  | cons p ps ih =>
    by_cases hp : p.1 = n
    · simp [setColList, getColList, hp]
    · simp [setColList, getColList, hp, ih]

theorem getColList_set_ne (ps : List (String × ColV)) {n n' : String}
    (v : ColV) (h : n' ≠ n) :
    getColList (setColList ps n v) n' = getColList ps n' := by
  induction ps with
  | nil => simp [setColList, getColList, Ne.symm h]
  | cons p ps ih =>
    by_cases hp : p.1 = n
    · simp [setColList, getColList, hp, Ne.symm h]
    · by_cases hp' : p.1 = n'
      · simp [setColList, getColList, hp, hp', h]
      · simp [setColList, getColList, hp, hp', ih]

theorem PDF.getCol_set_self (df : PDF) (n : String) (v : ColV) :
    (df.setCol n v).getCol n = some v :=
  getColList_set_self df.cols n v

theorem PDF.getCol_set_ne (df : PDF) {n n' : String} (v : ColV)
    (h : n' ≠ n) : (df.setCol n v).getCol n' = df.getCol n' :=
  getColList_set_ne df.cols v h

theorem is_squeeze_some_iff (b : ℝ) (thr : ℚ) :
    is_squeeze (some b) thr = true ↔ b < (thr : ℝ) := by
  simp [is_squeeze]

theorem is_squeeze_none (thr : ℚ) : is_squeeze none thr = false := rfl

/-! ### Claim theorems -/

/-- C1: the cooldown idempotence property fails on the code as
written: the store functions are placeholders (`set_last_alert_time`
discards its argument, `get_last_alert_time` always returns `0`), so
after recording a dispatch at `t = 1` the check at
`t + ALERT_COOLDOWN - 1 = 3600` computes `3600 - 0 ≥ 3600` and already
allows a dispatch, where the claimed property requires suppression. -/
theorem C1_cooldown_placeholder_eval :
    get_last_alert_time (set_last_alert_time 0 1) = 0 ∧
    shouldDispatch (set_last_alert_time 0 1) (1 + ALERT_COOLDOWN - 1) = true := by
  refine ⟨rfl, ?_⟩
  have h : (1 : ℚ) + ALERT_COOLDOWN - 1 -
      get_last_alert_time (set_last_alert_time 0 1) ≥ ALERT_COOLDOWN := by
    norm_num [get_last_alert_time, ALERT_COOLDOWN]
  simpa [shouldDispatch] using h

/-- C2: for a series long enough and an index with a full lookback
window of at least two observations (`2 ≤ period`; on a window of a
single observation the sample standard deviation with `ddof = 1` is
NaN), the `SMA` column is the arithmetic mean of the `period` closes
ending at `i`, the `STD` column is the sample standard deviation
(ddof = 1, the pandas `.std()` convention) of that window, the bands
are `SMA ± mult·STD`, the band width is `(upper − lower) / SMA`
(whenever the SMA is nonzero, so the float division is finite), and
none of the five columns has a value on the first `period − 1` rows. -/
theorem C2_indicator_definition (period : ℕ) (mult : ℚ) (closes : List ℚ)
    (i : ℕ) (hp2 : 2 ≤ period) (hper : period ≤ i + 1)
    (hi : i < closes.length) :
    SMA period closes i =
      some (((closes.drop (i + 1 - period)).take period).sum / (period : ℚ)) ∧
    STD period closes i = some (sampleStdVal (windowAt period closes i)) ∧
    Upper_Band period mult closes i =
      some ((mean (windowAt period closes i) : ℝ) +
        (mult : ℝ) * sampleStdVal (windowAt period closes i)) ∧
    Lower_Band period mult closes i =
      some ((mean (windowAt period closes i) : ℝ) -
        (mult : ℝ) * sampleStdVal (windowAt period closes i)) ∧
    (mean (windowAt period closes i) ≠ 0 →
      Band_Width period mult closes i =
        some ((((mean (windowAt period closes i) : ℝ) +
            (mult : ℝ) * sampleStdVal (windowAt period closes i)) -
          ((mean (windowAt period closes i) : ℝ) -
            (mult : ℝ) * sampleStdVal (windowAt period closes i))) /
          (mean (windowAt period closes i) : ℝ))) ∧
    (∀ j, j + 1 < period →
      SMA period closes j = none ∧ STD period closes j = none ∧
      Upper_Band period mult closes j = none ∧
      Lower_Band period mult closes j = none ∧
      Band_Width period mult closes j = none) := by
  have hnot : ¬ (i + 1 < period) := by omega
  have hlen : (windowAt period closes i).length = period :=
    windowAt_length hper hi
  have hw2 : 2 ≤ (windowAt period closes i).length := by omega
  have hstd : STD period closes i =
      some (sampleStdVal (windowAt period closes i)) := by
    rw [STD, if_neg hnot, sampleStd_eq_val hw2]
  refine ⟨?_, hstd, ?_, ?_, ?_, ?_⟩
  · rw [SMA, if_neg hnot, mean, hlen, windowAt_eq_slice hper]
  · simp [Upper_Band, SMA, hnot, hstd]
  · simp [Lower_Band, SMA, hnot, hstd]
  · intro hm
    simp [Band_Width, Upper_Band, Lower_Band, SMA, hnot, hstd, hm]
  · intro j hj
    simp [SMA, STD, Upper_Band, Lower_Band, Band_Width, hj]

/-- C2 at the degenerate window size the theorem excludes: with
`period = 1` a full window holds a single observation, the sample
standard deviation is NaN, and all four derived columns are NaN. -/
theorem C2_degenerate_window_nan :
    STD 1 [(2 : ℚ)] 0 = none ∧ Upper_Band 1 3 [(2 : ℚ)] 0 = none ∧
    Lower_Band 1 3 [(2 : ℚ)] 0 = none ∧ Band_Width 1 3 [(2 : ℚ)] 0 = none := by
  refine ⟨?_, ?_, ?_, ?_⟩ <;>
    simp [STD, Upper_Band, Lower_Band, Band_Width, SMA, sampleStd, sampleVar,
      windowAt]

/-- Witness for C2 at `period = 2`, `mult = 3`, `closes = [1, 2]`,
`i = 1`. -/
theorem C2_indicator_definition_witness :
    (2 : ℕ) ≤ 2 ∧ (2 : ℕ) ≤ 1 + 1 ∧ 1 < [(1 : ℚ), 2].length ∧
    (SMA 2 [(1 : ℚ), 2] 1 =
      some ((([(1 : ℚ), 2].drop (1 + 1 - 2)).take 2).sum / ((2 : ℕ) : ℚ)) ∧
    STD 2 [(1 : ℚ), 2] 1 = some (sampleStdVal (windowAt 2 [(1 : ℚ), 2] 1)) ∧
    Upper_Band 2 3 [(1 : ℚ), 2] 1 =
      some ((mean (windowAt 2 [(1 : ℚ), 2] 1) : ℝ) +
        ((3 : ℚ) : ℝ) * sampleStdVal (windowAt 2 [(1 : ℚ), 2] 1)) ∧
    Lower_Band 2 3 [(1 : ℚ), 2] 1 =
      some ((mean (windowAt 2 [(1 : ℚ), 2] 1) : ℝ) -
        ((3 : ℚ) : ℝ) * sampleStdVal (windowAt 2 [(1 : ℚ), 2] 1)) ∧
    (mean (windowAt 2 [(1 : ℚ), 2] 1) ≠ 0 →
      Band_Width 2 3 [(1 : ℚ), 2] 1 =
        some ((((mean (windowAt 2 [(1 : ℚ), 2] 1) : ℝ) +
            ((3 : ℚ) : ℝ) * sampleStdVal (windowAt 2 [(1 : ℚ), 2] 1)) -
          ((mean (windowAt 2 [(1 : ℚ), 2] 1) : ℝ) -
            ((3 : ℚ) : ℝ) * sampleStdVal (windowAt 2 [(1 : ℚ), 2] 1))) /
          (mean (windowAt 2 [(1 : ℚ), 2] 1) : ℝ))) ∧
    (∀ j, j + 1 < 2 →
      SMA 2 [(1 : ℚ), 2] j = none ∧ STD 2 [(1 : ℚ), 2] j = none ∧
      Upper_Band 2 3 [(1 : ℚ), 2] j = none ∧
      Lower_Band 2 3 [(1 : ℚ), 2] j = none ∧
      Band_Width 2 3 [(1 : ℚ), 2] j = none)) :=
  ⟨by decide, by decide, by decide,
   C2_indicator_definition 2 3 [(1 : ℚ), 2] 1 (by decide) (by decide)
     (by decide)⟩

/-- C3: the evaluation decision: `is_squeeze` is the strict comparison
`band_width < SQUEEZE_THRESHOLD` and is `false` for a NaN/Infinity
band width (`none`), `is_valid_hour` holds iff the current UTC hour is
not excluded, and `signal = is_squeeze AND is_valid_hour`. -/
theorem C3_evaluation_decision (price : ℚ) (bw : Option ℝ) (hour n : ℕ) :
    ((evalStep price bw hour n).is_squeeze = true ↔
      ∃ b, bw = some b ∧ b < (SQUEEZE_THRESHOLD : ℝ)) ∧
    (bw = none → (evalStep price bw hour n).is_squeeze = false) ∧
    ((evalStep price bw hour n).is_valid_hour = true ↔
      hour ∉ EXCLUDED_HOURS) ∧
    ((evalStep price bw hour n).signal = true ↔
      (evalStep price bw hour n).is_squeeze = true ∧
      (evalStep price bw hour n).is_valid_hour = true) ∧
    (evalStep price bw hour n).band_width = bw ∧
    (evalStep price bw hour n).threshold = SQUEEZE_THRESHOLD ∧
    (evalStep price bw hour n).current_hour = hour := by
  refine ⟨?_, ?_, ?_, ?_, rfl, rfl, rfl⟩
  · cases bw with
    | none => simp [evalStep, is_squeeze]
    | some b => simp [evalStep, is_squeeze]
  · rintro rfl
    simp [evalStep, is_squeeze]
  · simp [evalStep, is_valid_hour]
  · simp [evalStep, Bool.and_eq_true]

/-- Witness for C3 at `price = 1`, `bw = none`, `hour = 3`, `n = 20`. -/
theorem C3_evaluation_decision_witness :
    ((evalStep 1 none 3 20).is_squeeze = true ↔
      ∃ b, (none : Option ℝ) = some b ∧ b < (SQUEEZE_THRESHOLD : ℝ)) ∧
    ((none : Option ℝ) = none → (evalStep 1 none 3 20).is_squeeze = false) ∧
    ((evalStep 1 none 3 20).is_valid_hour = true ↔
      3 ∉ EXCLUDED_HOURS) ∧
    ((evalStep 1 none 3 20).signal = true ↔
      (evalStep 1 none 3 20).is_squeeze = true ∧
      (evalStep 1 none 3 20).is_valid_hour = true) ∧
    (evalStep 1 none 3 20).band_width = none ∧
    (evalStep 1 none 3 20).threshold = SQUEEZE_THRESHOLD ∧
    (evalStep 1 none 3 20).current_hour = 3 :=
  C3_evaluation_decision 1 none 3 20

/-- C4 counterexample: when both providers fail (primary error `"XX"`,
fallback error `"YY"`), the report message is `"Data fetch failed: YY"`
and does not contain the primary provider's error `"XX"`: the claim
that the failure message concatenates both errors is false. -/
theorem C4_counterexample :
    analyze_market (none, "XX") (none, "YY") 0 =
      .err ("Data fetch failed: YY") ∧
    ¬ ("XX".toList <:+: ("Data fetch failed: YY").toList) := by
  constructor
  · rfl
  · decide

theorem insufficient_ne_fetchfail (a b : String) :
    "Insufficient data: " ++ a ≠ "Data fetch failed: " ++ b := by
  intro h
  have hd := congrArg String.data h
  rw [String.data_append, String.data_append] at hd
  have h1 : ("Insufficient data: ").data = 'I' :: ("nsufficient data: ").data :=
    rfl
  have h2 : ("Data fetch failed: ").data = 'D' :: ("ata fetch failed: ").data :=
    rfl
  rw [h1, h2, List.cons_append, List.cons_append] at hd
  simp at hd

/-- C4 (amended): when both providers fail the report carries only the
fallback provider's error (`"Data fetch failed: " ++ e2`, the primary
error having been overwritten), and no fetch-failure report is
produced when at least one provider returns a dataframe. -/
theorem C4_fetch_error_message (tw ya : Option DF × String) (hour : ℕ) :
    (∀ e1 e2, tw = (none, e1) → ya = (none, e2) →
      analyze_market tw ya hour = .err ("Data fetch failed: " ++ e2)) ∧
    (∀ df, (tw.1 = some df ∨ ya.1 = some df) →
      ∀ s, analyze_market tw ya hour ≠ .err ("Data fetch failed: " ++ s)) := by
  constructor
  · rintro e1 e2 rfl rfl
    simp [analyze_market, fetchJoin]
  · rintro df hdf s heq
    obtain ⟨o1, e1⟩ := tw
    obtain ⟨o2, e2⟩ := ya
    cases o1 with
    | some d =>
      unfold analyze_market fetchJoin at heq
      by_cases hlen : d.closes.length < BOLLINGER_PERIOD
      · simp only [hlen, if_true, AnalyzeResult.err.injEq] at heq
        rw [String.append_assoc] at heq
        exact insufficient_ne_fetchfail _ _ heq
      · simp [hlen] at heq
    | none =>
      cases o2 with
      | some d =>
        unfold analyze_market fetchJoin at heq
        by_cases hlen : d.closes.length < BOLLINGER_PERIOD
        · simp only [hlen, if_true, AnalyzeResult.err.injEq] at heq
          rw [String.append_assoc] at heq
          exact insufficient_ne_fetchfail _ _ heq
        · simp [hlen] at heq
      | none => simp at hdf

/-- Witness for C4 at primary error `"A"`, fallback error `"B"`. -/
theorem C4_fetch_error_message_witness :
    analyze_market (none, "A") (none, "B") 0 =
      .err ("Data fetch failed: " ++ "B") :=
  (C4_fetch_error_message (none, "A") (none, "B") 0).1 "A" "B" rfl rfl

/-- C5 counterexample: two accepted Yahoo rows sharing timestamp `0`
both survive `dropna().sort_index()`: the returned series contains
two bars with the same timestamp, so the fetch result is not
deduplicated. -/
theorem C5_counterexample :
    (fetch_yahoo_fallback
      [(⟨0, some 1, some 1, some 1, some 1⟩ : YRow),
       (⟨0, some 2, some 2, some 2, some 2⟩ : YRow)]).map (fun r => r.ts) =
      [0, 0] ∧
    (fetch_yahoo_fallback
      [(⟨0, some 1, some 1, some 1, some 1⟩ : YRow),
       (⟨0, some 2, some 2, some 2, some 2⟩ : YRow)]).length = 2 := by
  decide

/-- C5 (amended): both fetch paths return series sorted ascending by
timestamp (non-strictly: duplicates are not removed).  On the Yahoo
path rows with missing values are dropped and every returned row is
fully populated; on the Twelve Data path no row is dropped (the
returned series has one row per payload row) and a single non-numeric
OHLC cell makes the whole fetch fail instead of dropping that row. -/
theorem C5_sorted_not_dedup (payload : List RawRow) (ypayload : List YRow) :
    (∀ rows e, fetch_twelve_data payload = (some rows, e) →
      List.Sorted (fun a b : FloatRow => a.ts ≤ b.ts) rows ∧
      rows.length = payload.length) ∧
    ((∃ r ∈ payload, rowOk r = false) →
      (fetch_twelve_data payload).1 = none) ∧
    List.Sorted (fun a b : YRow => a.ts ≤ b.ts)
      (fetch_yahoo_fallback ypayload) ∧
    (∀ r ∈ fetch_yahoo_fallback ypayload, yRowFull r = true) := by
  refine ⟨?_, ?_, ?_, ?_⟩
  · intro rows e h
    by_cases hall : (twelveSort payload).all rowOk
    · simp only [fetch_twelve_data, hall, if_true, Prod.mk.injEq,
        Option.some.injEq] at h
      obtain ⟨hrows, -⟩ := h
      subst hrows
      constructor
      · exact List.pairwise_map.mpr
          (List.sorted_insertionSort (fun a b : RawRow => a.ts ≤ b.ts) payload)
      · rw [List.length_map]
        exact (List.perm_insertionSort _ payload).length_eq
    · simp [fetch_twelve_data, hall] at h
  · rintro ⟨r, hr, hbad⟩
    by_cases hall : (twelveSort payload).all rowOk
    · exfalso
      have hmem : r ∈ twelveSort payload :=
        ((List.perm_insertionSort _ payload).mem_iff).mpr hr
      have := List.all_eq_true.mp hall r hmem
      rw [hbad] at this
      exact Bool.false_ne_true this
    · simp [fetch_twelve_data, hall]
  · exact List.sorted_insertionSort _ _
  · intro r hr
    have hmem : r ∈ ypayload.filter yRowFull :=
      ((List.perm_insertionSort _ _).mem_iff).mp hr
    exact (List.mem_filter.mp hmem).2

/-- Witness for C5: a one-row numeric payload goes through the Twelve
Data path sorted and undropped, and a one-row payload with a
non-numeric close fails that path entirely. -/
theorem C5_sorted_not_dedup_witness :
    List.Sorted (fun a b : FloatRow => a.ts ≤ b.ts)
      [(⟨3, some 1, some 1, some 1, some 1⟩ : FloatRow)] ∧
    [(⟨3, some 1, some 1, some 1, some 1⟩ : FloatRow)].length =
      [(⟨3, RawCell.num 1, RawCell.num 1, RawCell.num 1,
          RawCell.num 1⟩ : RawRow)].length ∧
    (fetch_twelve_data
      [(⟨3, RawCell.num 1, RawCell.num 1, RawCell.num 1,
          RawCell.text "x"⟩ : RawRow)]).1 = none := by
  have h := C5_sorted_not_dedup
    [(⟨3, RawCell.num 1, RawCell.num 1, RawCell.num 1,
        RawCell.num 1⟩ : RawRow)] []
  have h2 := C5_sorted_not_dedup
    [(⟨3, RawCell.num 1, RawCell.num 1, RawCell.num 1,
        RawCell.text "x"⟩ : RawRow)] []
  obtain ⟨hs, hl⟩ :=
    h.1 [(⟨3, some 1, some 1, some 1, some 1⟩ : FloatRow)] "" (by decide)
  exact ⟨hs, hl, h2.2.1 (by decide)⟩

/-- C6: when every close equals the same positive constant and a full
window of at least two observations exists at `i` (`2 ≤ period`; a
one-observation window has NaN standard deviation under `ddof = 1`),
the band width is exactly `0`, hence the squeeze check succeeds for
every positive threshold. -/
theorem C6_flat_closes (period : ℕ) (mult thr c : ℚ) (closes : List ℚ)
    (i : ℕ) (hp2 : 2 ≤ period) (hper : period ≤ i + 1)
    (hi : i < closes.length) (hall : ∀ x ∈ closes, x = c) (hc : 0 < c)
    (hthr : 0 < thr) :
    Band_Width period mult closes i = some 0 ∧
    is_squeeze (Band_Width period mult closes i) thr = true := by
  have hnot : ¬ (i + 1 < period) := by omega
  have hlen : (windowAt period closes i).length = period :=
    windowAt_length hper hi
  have hw2 : 2 ≤ (windowAt period closes i).length := by omega
  have hw : windowAt period closes i ≠ [] := by
    intro h0
    rw [h0] at hlen
    simp at hlen
    omega
  have hallw : ∀ x ∈ windowAt period closes i, x = c :=
    fun x hx => hall x (windowAt_subset period closes i hx)
  have hmean : mean (windowAt period closes i) = c := mean_const hw hallw
  have hstd : sampleStd (windowAt period closes i) = some 0 :=
    sampleStd_const hw2 hallw
  have hSTD : STD period closes i = some 0 := by
    rw [STD, if_neg hnot, hstd]
  have hbw : Band_Width period mult closes i = some 0 := by
    simp [Band_Width, Upper_Band, Lower_Band, SMA, hnot, hSTD, hmean, hc.ne']
  refine ⟨hbw, ?_⟩
  rw [hbw]
  have h0 : (0 : ℝ) < (thr : ℝ) := by exact_mod_cast hthr
  simp [is_squeeze, h0]

/-- Witness for C6 at `period = 2`, `mult = 5`, `thr = 1`, `c = 1`,
`closes = [1, 1]`, `i = 1`. -/
theorem C6_flat_closes_witness :
    Band_Width 2 5 [(1 : ℚ), 1] 1 = some 0 ∧
    is_squeeze (Band_Width 2 5 [(1 : ℚ), 1] 1) 1 = true :=
  C6_flat_closes 2 5 1 1 [(1 : ℚ), 1] 1 (by decide) (by decide) (by decide)
    (by decide) (by decide) (by decide)

/-- C7: whenever the fetched dataframe has fewer rows than the
lookback period, `analyze_market` returns the terminal
"Insufficient data" error report, and the orchestrator answers it
with HTTP 500, attempts no dispatch, sends nothing, and leaves the
cooldown state untouched. -/
theorem C7_insufficient_data (tw ya : Option DF × String) (df : DF)
    (e : String) (hour : ℕ) (s now : ℚ) (send : Bool × String)
    (hjoin : fetchJoin tw ya = (some df, e))
    (hlen : df.closes.length < BOLLINGER_PERIOD) :
    analyze_market tw ya hour =
      .err ("Insufficient data: " ++ toString df.closes.length ++ " bars") ∧
    (do_GET (analyze_market tw ya hour) s now send).code = 500 ∧
    (do_GET (analyze_market tw ya hour) s now send).attempted = false ∧
    (do_GET (analyze_market tw ya hour) s now send).alert_sent = false ∧
    (do_GET (analyze_market tw ya hour) s now send).store = s := by
  have ha : analyze_market tw ya hour =
      .err ("Insufficient data: " ++ toString df.closes.length ++ " bars") := by
    unfold analyze_market
    rw [hjoin]
    simp [hlen]
  refine ⟨ha, ?_, ?_, ?_, ?_⟩ <;> rw [ha] <;> rfl

/-- Witness for C7 with a one-bar dataframe from the primary provider. -/
theorem C7_insufficient_data_witness :
    analyze_market (some ⟨[(1 : ℚ)]⟩, "") (none, "") 0 =
      .err ("Insufficient data: " ++
        toString (DF.mk [(1 : ℚ)]).closes.length ++ " bars") ∧
    (do_GET (analyze_market (some ⟨[(1 : ℚ)]⟩, "") (none, "") 0)
      0 0 (false, "")).code = 500 ∧
    (do_GET (analyze_market (some ⟨[(1 : ℚ)]⟩, "") (none, "") 0)
      0 0 (false, "")).attempted = false ∧
    (do_GET (analyze_market (some ⟨[(1 : ℚ)]⟩, "") (none, "") 0)
      0 0 (false, "")).alert_sent = false ∧
    (do_GET (analyze_market (some ⟨[(1 : ℚ)]⟩, "") (none, "") 0)
      0 0 (false, "")).store = 0 :=
  C7_insufficient_data (some ⟨[(1 : ℚ)]⟩, "") (none, "") ⟨[(1 : ℚ)]⟩ ""
    0 0 0 (false, "") (by decide) (by decide)

/-- C8: the orchestrator never calls `send_trade_alert` unless the
evaluated signal is `true`; and on an evaluated no-signal run it
attempts no dispatch, answers 200, and reports "No squeeze" exactly
when the squeeze check failed and "Invalid hour" exactly when the
hour check failed. -/
theorem C8_dispatch_gating (r : AnalyzeResult) (s now : ℚ)
    (send : Bool × String) (price : ℚ) (bw : Option ℝ) (hour n : ℕ) :
    ((do_GET r s now send).attempted = true →
      ∃ d, r = .ok d ∧ d.signal = true) ∧
    ((evalStep price bw hour n).signal = false →
      (do_GET (.ok (evalStep price bw hour n)) s now send).attempted = false ∧
      (do_GET (.ok (evalStep price bw hour n)) s now send).code = 200 ∧
      ("No squeeze" ∈
          (do_GET (.ok (evalStep price bw hour n)) s now send).reasons ↔
        (evalStep price bw hour n).is_squeeze = false) ∧
      ("Invalid hour" ∈
          (do_GET (.ok (evalStep price bw hour n)) s now send).reasons ↔
        (evalStep price bw hour n).is_valid_hour = false)) := by
  constructor
  · intro hatt
    cases r with
    | err m => simp [do_GET] at hatt
    | ok d =>
      refine ⟨d, rfl, ?_⟩
      cases hs : d.signal with
      | false => simp [do_GET, hs] at hatt
      | true => rfl
  · intro hsig
    refine ⟨?_, ?_, ?_, ?_⟩ <;>
      cases hs : (evalStep price bw hour n).is_squeeze <;>
      cases hv : (evalStep price bw hour n).is_valid_hour <;>
      simp [do_GET, hsig, hs, hv]

/-- Witness for C8 at an evaluation with an excluded hour (8) and a
NaN band width, so the signal is down. -/
theorem C8_dispatch_gating_witness :
    (evalStep 1 none 8 25).signal = false ∧
    ((do_GET (.ok (evalStep 1 none 8 25)) 0 0 (false, "")).attempted = false ∧
     (do_GET (.ok (evalStep 1 none 8 25)) 0 0 (false, "")).code = 200 ∧
     ("No squeeze" ∈
         (do_GET (.ok (evalStep 1 none 8 25)) 0 0 (false, "")).reasons ↔
       (evalStep 1 none 8 25).is_squeeze = false) ∧
     ("Invalid hour" ∈
         (do_GET (.ok (evalStep 1 none 8 25)) 0 0 (false, "")).reasons ↔
       (evalStep 1 none 8 25).is_valid_hour = false)) :=
  ⟨rfl, (C8_dispatch_gating (.ok (evalStep 1 none 8 25)) 0 0 (false, "")
    1 none 8 25).2 rfl⟩

/-- C9 counterexample: on the same evaluation inputs (band width
`0.001`, hour 3, 30 bars) the cron file signals (`0.001 < 0.002`)
while the scheduler file does not (`0.001 ≥ 0.0002`), because the two
files hard-code different squeeze thresholds; so their decisions do
not agree on identical inputs. -/
theorem C9_counterexample :
    (evalStep 1 (some ((1 : ℝ) / 1000)) 3 30).signal = true ∧
    (Sched.evalStep 1 (some ((1 : ℝ) / 1000)) 3 30).signal = false ∧
    SQUEEZE_THRESHOLD ≠ Sched.SQUEEZE_THRESHOLD := by
  refine ⟨?_, ?_, ?_⟩
  · have hsq : is_squeeze (some ((1 : ℝ) / 1000)) SQUEEZE_THRESHOLD = true := by
      have h : (1 : ℝ) / 1000 < ((SQUEEZE_THRESHOLD : ℚ) : ℝ) := by
        rw [SQUEEZE_THRESHOLD]
        push_cast
        norm_num
      simpa [is_squeeze] using h
    have hv : is_valid_hour 3 = true := by decide
    show (is_squeeze (some ((1 : ℝ) / 1000)) SQUEEZE_THRESHOLD &&
      is_valid_hour 3) = true
    rw [hsq, hv]
    rfl
  · have hsq : Sched.is_squeeze (some ((1 : ℝ) / 1000))
        Sched.SQUEEZE_THRESHOLD = false := by
      have h : ¬ ((1 : ℝ) / 1000 < ((Sched.SQUEEZE_THRESHOLD : ℚ) : ℝ)) := by
        rw [Sched.SQUEEZE_THRESHOLD]
        push_cast
        norm_num
      simpa [Sched.is_squeeze] using h
    show (Sched.is_squeeze (some ((1 : ℝ) / 1000)) Sched.SQUEEZE_THRESHOLD &&
      Sched.is_valid_hour 3) = false
    rw [hsq]
    rfl
  · rw [SQUEEZE_THRESHOLD, Sched.SQUEEZE_THRESHOLD]
    norm_num

theorem sched_squeeze_neg_one :
    Sched.is_squeeze (some (-1 : ℝ)) Sched.SQUEEZE_THRESHOLD = true := by
  have h : (-1 : ℝ) < ((Sched.SQUEEZE_THRESHOLD : ℚ) : ℝ) := by
    rw [Sched.SQUEEZE_THRESHOLD]
    push_cast
    norm_num
  simp [Sched.is_squeeze, h]

/-- C9 (amended): the two files agree on the indicator computation,
the hour gate, the cooldown constants, store stubs and check, and the
whole signal → cooldown → dispatch sequencing (when the scheduler's
credential check passes); their evaluators differ only in the
hard-coded squeeze threshold (`0.002` vs `0.0002`), which is coarser
in the cron file, so a scheduler squeeze implies a cron squeeze but
not conversely, and the files collapse into one implementation only
after a single threshold is chosen. -/
theorem C9_pipeline_agreement :
    (∀ period mult closes i,
      Sched.SMA period closes i = SMA period closes i ∧
      Sched.STD period closes i = STD period closes i ∧
      Sched.Upper_Band period mult closes i = Upper_Band period mult closes i ∧
      Sched.Lower_Band period mult closes i = Lower_Band period mult closes i ∧
      Sched.Band_Width period mult closes i =
        Band_Width period mult closes i) ∧
    (∀ hour, Sched.is_valid_hour hour = is_valid_hour hour) ∧
    Sched.ALERT_COOLDOWN = ALERT_COOLDOWN ∧
    (∀ s now, Sched.shouldDispatch s now = shouldDispatch s now) ∧
    (∀ s t, Sched.set_last_alert_time s t = set_last_alert_time s t ∧
      Sched.get_last_alert_time s = get_last_alert_time s) ∧
    (∀ r s now send,
      (Sched.main_execution true r s now send).attempted =
        (do_GET r s now send).attempted ∧
      (Sched.main_execution true r s now send).alert_sent =
        (do_GET r s now send).alert_sent ∧
      (Sched.main_execution true r s now send).cooldown_active =
        (do_GET r s now send).cooldown_active ∧
      (Sched.main_execution true r s now send).cooldown_remaining_minutes =
        (do_GET r s now send).cooldown_remaining_minutes ∧
      (Sched.main_execution true r s now send).reasons =
        (do_GET r s now send).reasons ∧
      (Sched.main_execution true r s now send).store =
        (do_GET r s now send).store) ∧
    (∀ bw, Sched.is_squeeze bw Sched.SQUEEZE_THRESHOLD = true →
      is_squeeze bw SQUEEZE_THRESHOLD = true) := by
  refine ⟨fun period mult closes i => ⟨rfl, rfl, rfl, rfl, rfl⟩,
    fun hour => rfl, rfl, fun s now => rfl, fun s t => ⟨rfl, rfl⟩, ?_, ?_⟩
  · intro r s now send
    cases r with
    | err m => exact ⟨rfl, rfl, rfl, rfl, rfl, rfl⟩
    | ok d =>
      cases hs : d.signal with
      | false => simp [Sched.main_execution, do_GET, hs]
      | true =>
        by_cases hcd : (3600 : ℚ) ≤ now
        · cases hsend : send.1 <;>
            simp [Sched.main_execution, do_GET, hs, hsend,
              Sched.get_last_alert_time, get_last_alert_time,
              Sched.ALERT_COOLDOWN, ALERT_COOLDOWN,
              Sched.set_last_alert_time, set_last_alert_time, hcd]
        · simp [Sched.main_execution, do_GET, hs,
            Sched.get_last_alert_time, get_last_alert_time,
            Sched.ALERT_COOLDOWN, ALERT_COOLDOWN, hcd]
  · intro bw hsq
    cases bw with
    | none => simp [Sched.is_squeeze] at hsq
    | some b =>
      simp only [Sched.is_squeeze, decide_eq_true_eq] at hsq
      have hle : ((Sched.SQUEEZE_THRESHOLD : ℚ) : ℝ) ≤
          ((SQUEEZE_THRESHOLD : ℚ) : ℝ) := by
        rw [SQUEEZE_THRESHOLD, Sched.SQUEEZE_THRESHOLD]
        push_cast
        norm_num
      simp only [is_squeeze, decide_eq_true_eq]
      exact lt_of_lt_of_le hsq hle

/-- Witness for C9: a band width below both thresholds squeezes under
the scheduler threshold, hence also under the cron threshold. -/
theorem C9_pipeline_agreement_witness :
    is_squeeze (some (-1 : ℝ)) SQUEEZE_THRESHOLD = true :=
  C9_pipeline_agreement.2.2.2.2.2.2 (some (-1 : ℝ)) sched_squeeze_neg_one

/-- C10: `calculate_bollinger_bands` mutates the referenced dataframe
in place: it returns the same reference, the referenced dataframe now
carries the five indicator columns `SMA`, `STD`, `Upper_Band`,
`Lower_Band`, `Band_Width` (computed from its `Close` column), the row
index and the original `Open`/`High`/`Low`/`Close` columns are
untouched, every other dataframe in the heap is untouched, and the
caller's dataframe really is modified (it differs from its pre-call
state whenever it did not already carry a `Band_Width` column). -/
theorem C10_inplace_frame (heap : ℕ → PDF) (r : ℕ) (period : ℕ) (mult : ℚ) :
    (calculate_bollinger_bands heap r period mult).2 = r ∧
    ((calculate_bollinger_bands heap r period mult).1 r).index =
      (heap r).index ∧
    (((calculate_bollinger_bands heap r period mult).1 r).getCol "Open" =
      (heap r).getCol "Open" ∧
     ((calculate_bollinger_bands heap r period mult).1 r).getCol "High" =
      (heap r).getCol "High" ∧
     ((calculate_bollinger_bands heap r period mult).1 r).getCol "Low" =
      (heap r).getCol "Low" ∧
     ((calculate_bollinger_bands heap r period mult).1 r).getCol "Close" =
      (heap r).getCol "Close") ∧
    (((calculate_bollinger_bands heap r period mult).1 r).getCol "SMA" =
      some (.rcol (smaColumn period (heap r).closesOf)) ∧
     ((calculate_bollinger_bands heap r period mult).1 r).getCol "STD" =
      some (.rcol (stdColumn period (heap r).closesOf)) ∧
     ((calculate_bollinger_bands heap r period mult).1 r).getCol
        "Upper_Band" =
      some (.rcol (upperColumn period mult (heap r).closesOf)) ∧
     ((calculate_bollinger_bands heap r period mult).1 r).getCol
        "Lower_Band" =
      some (.rcol (lowerColumn period mult (heap r).closesOf)) ∧
     ((calculate_bollinger_bands heap r period mult).1 r).getCol
        "Band_Width" =
      some (.rcol (bwColumn period mult (heap r).closesOf))) ∧
    (∀ q, q ≠ r → (calculate_bollinger_bands heap r period mult).1 q =
      heap q) ∧
    ((heap r).getCol "Band_Width" = none →
      (calculate_bollinger_bands heap r period mult).1 r ≠ heap r) := by
  refine ⟨rfl, ?_, ⟨?_, ?_, ?_, ?_⟩, ⟨?_, ?_, ?_, ?_, ?_⟩, ?_, ?_⟩ <;>
    simp only [calculate_bollinger_bands, Function.update_same]
  · rfl
  · rw [PDF.getCol_set_ne _ _ (by decide), PDF.getCol_set_ne _ _ (by decide),
      PDF.getCol_set_ne _ _ (by decide), PDF.getCol_set_ne _ _ (by decide),
      PDF.getCol_set_ne _ _ (by decide)]
  · rw [PDF.getCol_set_ne _ _ (by decide), PDF.getCol_set_ne _ _ (by decide),
      PDF.getCol_set_ne _ _ (by decide), PDF.getCol_set_ne _ _ (by decide),
      PDF.getCol_set_ne _ _ (by decide)]
  · rw [PDF.getCol_set_ne _ _ (by decide), PDF.getCol_set_ne _ _ (by decide),
      PDF.getCol_set_ne _ _ (by decide), PDF.getCol_set_ne _ _ (by decide),
      PDF.getCol_set_ne _ _ (by decide)]
  · rw [PDF.getCol_set_ne _ _ (by decide), PDF.getCol_set_ne _ _ (by decide),
      PDF.getCol_set_ne _ _ (by decide), PDF.getCol_set_ne _ _ (by decide),
      PDF.getCol_set_ne _ _ (by decide)]
  · rw [PDF.getCol_set_ne _ _ (by decide), PDF.getCol_set_ne _ _ (by decide),
      PDF.getCol_set_ne _ _ (by decide), PDF.getCol_set_ne _ _ (by decide)]
    exact PDF.getCol_set_self _ _ _
  · rw [PDF.getCol_set_ne _ _ (by decide), PDF.getCol_set_ne _ _ (by decide),
      PDF.getCol_set_ne _ _ (by decide)]
    exact PDF.getCol_set_self _ _ _
  · rw [PDF.getCol_set_ne _ _ (by decide), PDF.getCol_set_ne _ _ (by decide)]
    exact PDF.getCol_set_self _ _ _
  · rw [PDF.getCol_set_ne _ _ (by decide)]
    exact PDF.getCol_set_self _ _ _
  · exact PDF.getCol_set_self _ _ _
  · intro q hq
    exact Function.update_noteq hq _ _
  · intro h0 heq
    have hbw := PDF.getCol_set_self
      (((((heap r).setCol "SMA"
            (.rcol (smaColumn period (heap r).closesOf))).setCol "STD"
            (.rcol (stdColumn period (heap r).closesOf))).setCol "Upper_Band"
            (.rcol (upperColumn period mult (heap r).closesOf))).setCol
            "Lower_Band" (.rcol (lowerColumn period mult (heap r).closesOf)))
      "Band_Width" (.rcol (bwColumn period mult (heap r).closesOf))
    rw [heq, h0] at hbw
    exact Option.noConfusion hbw

/-- Witness for C10 on a heap holding a single empty dataframe. -/
theorem C10_inplace_frame_witness :
    (calculate_bollinger_bands (fun _ => (⟨[], []⟩ : PDF)) 0 20 2).1 0 ≠
      (⟨[], []⟩ : PDF) :=
  (C10_inplace_frame (fun _ => (⟨[], []⟩ : PDF)) 0 20 2).2.2.2.2.2 rfl
